import Mathlib

/-
Verification of jira_report_email.py: a shallow embedding of the script in
Lean 4, with theorems settling the behavioural claims about date resolution,
date display formatting, recipient resolution, environment validation,
transport selection, message composition and error handling.

The embedding models the Python standard-library behaviour the script relies
on, as it behaves on the reference platform (CPython on Linux/glibc), over
ASCII input:
  - datetime.strptime(s, "%Y-%m-%d"): CPython compiles the format to the
    regular expression "(\d\d\d\d)-(1[0-2]|0[1-9]|[1-9])-(3[01]|[12]\d|0[1-9]|[1-9])",
    anchored at the start, rejecting unconverted trailing data, and then
    constructs datetime(y, m, d), which rejects year 0 and days past the end
    of the month (leap years included).
  - datetime.strftime("%b %d, %Y"): abbreviated C-locale month name,
    zero-padded two-digit day, and the year as an unpadded decimal number
    (glibc does not zero-pad %Y: year 5 prints as "5", not "0005").
  - re.search with the group of four digits, hyphen, two digits, hyphen,
    two digits: leftmost match of the fixed-width pattern, with no
    anchoring, so it also matches inside longer digit runs.
  - str.split(","): keeps empty fields; str.strip(): trims whitespace at both
    ends; str.lower(); int(s): optional surrounding whitespace, optional
    sign, decimal digits with optional single underscores between digits.
Effects (stderr/stdout lines, file stats and opens, the SMTP dialogue) are
reified as an explicit event trace, and exits and uncaught exceptions as an
explicit outcome, so claims about ordering ("before any file access") and
about error handling become statements about the trace.
-/

namespace JiraReportEmail

/-- ASCII decimal digit test (the character class matched by the regex digit
class on ASCII input). -/
def isDigitC (c : Char) : Bool := '0' ≤ c && c ≤ '9'

/-- Numeric value of an ASCII digit character. -/
def digitVal (c : Char) : Nat := c.toNat - 48

/-- Value of a list of ASCII digit characters read in base 10. -/
def natOfDigits (cs : List Char) : Nat :=
  cs.foldl (fun a c => 10 * a + digitVal c) 0

/-- Gregorian leap-year rule, as used by datetime. -/
def isLeapYear (y : Nat) : Bool :=
  y % 4 == 0 && (y % 100 != 0 || y % 400 == 0)

/-- Number of days in a month, as validated by the datetime constructor. -/
def daysInMonth (y m : Nat) : Nat :=
  if m == 2 then (if isLeapYear y then 29 else 28)
  else if m == 4 || m == 6 || m == 9 || m == 11 then 30
  else 31

/-- Validation of the matched strptime fields: the month and day capture
groups are each one or two digits, the month is 1..12, the day is 1..31 and
no later than the end of that month (the datetime constructor check), and
the year is at least 1 (datetime.MINYEAR rejects year 0). -/
def checkYmdFields (y : Nat) (mcs dcs : List Char) : Option (Nat × Nat × Nat) :=
  if 1 ≤ y ∧ 1 ≤ mcs.length ∧ mcs.length ≤ 2 ∧
      1 ≤ natOfDigits mcs ∧ natOfDigits mcs ≤ 12 ∧
      1 ≤ dcs.length ∧ dcs.length ≤ 2 ∧ 1 ≤ natOfDigits dcs ∧
      natOfDigits dcs ≤ daysInMonth y (natOfDigits mcs) then
    some (y, natOfDigits mcs, natOfDigits dcs)
  else none

/-- Model of datetime.strptime(s, "%Y-%m-%d") (lines 60 and 183 of
jira_report_email.py): exactly four digits for the year, a hyphen, a one- or
two-digit month whose digit run stands entirely between the hyphens, a
hyphen, and a one- or two-digit day ending the string; checkYmdFields
validates the field values. Returns the numeric fields on success. -/
def strptimeYmd (s : String) : Option (Nat × Nat × Nat) :=
  match s.data with
  | c1 :: c2 :: c3 :: c4 :: '-' :: rest =>
    if isDigitC c1 && isDigitC c2 && isDigitC c3 && isDigitC c4 then
      match rest.dropWhile isDigitC with
      | '-' :: rest2 =>
        if (rest2.dropWhile isDigitC).isEmpty then
          checkYmdFields (natOfDigits [c1, c2, c3, c4])
            (rest.takeWhile isDigitC) (rest2.takeWhile isDigitC)
        else none
      | _ => none
    else none
  | _ => none

/-- C-locale abbreviated month name (strftime %b). -/
def monthAbbrev (m : Nat) : String :=
  match m with
  | 1 => "Jan"
  | 2 => "Feb"
  | 3 => "Mar"
  | 4 => "Apr"
  | 5 => "May"
  | 6 => "Jun"
  | 7 => "Jul"
  | 8 => "Aug"
  | 9 => "Sep"
  | 10 => "Oct"
  | 11 => "Nov"
  | 12 => "Dec"
  | _ => ""

/-- Zero-padded two-digit decimal (strftime %d). -/
def pad2 (n : Nat) : String :=
  if n < 10 then "0" ++ toString n else toString n

/-- Model of date_obj.strftime("%b %d, %Y") on glibc: abbreviated month,
zero-padded day, comma, and the year as an unpadded decimal (%Y does not
zero-pad on glibc; year 5 renders as "5"). -/
def strftimeSubject (y m d : Nat) : String :=
  monthAbbrev m ++ " " ++ pad2 d ++ ", " ++ toString y

/-- format_date_for_subject (lines 57-63): reformat a YYYY-MM-DD date string
for the subject line, returning the input unchanged if it fails to parse. -/
def format_date_for_subject (date_str : String) : String :=
  match strptimeYmd date_str with
  | some (y, m, d) => strftimeSubject y m d
  | none => date_str

/-- Match of the regex (\d{4}-\d{2}-\d{2}) at the head of the character
list: four digits, a hyphen, two digits, a hyphen, two digits, with no
anchoring after the match. Returns the matched ten-character substring. -/
def matchYmdAt (cs : List Char) : Option String :=
  match cs with
  | c1 :: c2 :: c3 :: c4 :: '-' :: c5 :: c6 :: '-' :: c7 :: c8 :: _ =>
    if isDigitC c1 && isDigitC c2 && isDigitC c3 && isDigitC c4 &&
        isDigitC c5 && isDigitC c6 && isDigitC c7 && isDigitC c8 then
      some (String.mk [c1, c2, c3, c4, '-', c5, c6, '-', c7, c8])
    else none
  | _ => none

/-- Model of re.search: try the pattern at each successive start position and
return the leftmost match. -/
def searchYmd : List Char → Option String
  | [] => none
  | c :: rest =>
    match matchYmdAt (c :: rest) with
    | some s => some s
    | none => searchYmd rest

/-- extract_date_from_filename (lines 46-54): first YYYY-MM-DD-shaped
substring of the filename, else the current date. The current date
datetime.now().strftime("%Y-%m-%d") is passed in as the parameter now. -/
def extract_date_from_filename (now : String) (filename : String) : String :=
  match searchYmd filename.data with
  | some s => s
  | none => now

/-- ASCII whitespace stripped by str.strip() and around int() input. -/
def isPySpace (c : Char) : Bool :=
  c == ' ' || c == '\t' || c == '\n' || c == '\r' || c == '\x0b' || c == '\x0c'

/-- Model of str.strip(): remove leading and trailing whitespace. -/
def pyStrip (s : String) : String :=
  String.mk (((s.data.dropWhile isPySpace).reverse.dropWhile isPySpace).reverse)

/-- Helper for pySplitComma: accumulate the current field (reversed). -/
def splitCommaAux (acc : List Char) : List Char → List String
  | [] => [String.mk acc.reverse]
  | c :: rest =>
    if c = ',' then String.mk acc.reverse :: splitCommaAux [] rest
    else splitCommaAux (c :: acc) rest

/-- Model of str.split(","): split on every comma, keeping empty fields;
the empty string yields a single empty field. -/
def pySplitComma (s : String) : List String :=
  splitCommaAux [] s.data

/-- ASCII lowercasing of one character (str.lower() on ASCII input). -/
def pyLowerChar (c : Char) : Char :=
  if 'A' ≤ c && c ≤ 'Z' then Char.ofNat (c.toNat + 32) else c

/-- Model of str.lower() over ASCII input. -/
def pyLower (s : String) : String :=
  String.mk (s.data.map pyLowerChar)

/-- Digits of an int() literal after the first one, allowing a single
underscore between digits. -/
def pyIntDigitsAux (acc : Nat) : List Char → Option Nat
  | [] => some acc
  | '_' :: c :: rest =>
    if isDigitC c then pyIntDigitsAux (10 * acc + digitVal c) rest else none
  | c :: rest =>
    if isDigitC c then pyIntDigitsAux (10 * acc + digitVal c) rest else none

/-- Nonempty digit run of an int() literal (underscores allowed between
digits only). -/
def pyIntDigits : List Char → Option Nat
  | [] => none
  | c :: rest => if isDigitC c then pyIntDigitsAux (digitVal c) rest else none

/-- Model of int(s) in base 10: optional surrounding whitespace, optional
sign, then a nonempty digit run; none models the ValueError raised on any
other input. -/
def pyInt (s : String) : Option Int :=
  match ((s.data.dropWhile isPySpace).reverse.dropWhile isPySpace).reverse with
  | '+' :: rest => (pyIntDigits rest).map Int.ofNat
  | '-' :: rest => (pyIntDigits rest).map (fun n => -(n : Int))
  | rest => (pyIntDigits rest).map Int.ofNat

/-- The process environment: an association list of variable names to
values (os.environ has at most one binding per name; lookup takes the
first). -/
abbrev Env := List (String × String)

/-- Model of os.environ.get: the value of the first binding of the key,
or none. -/
def envGet (e : Env) (k : String) : Option String :=
  match e.find? (fun p => p.1 == k) with
  | some p => some p.2
  | none => none

/-- The required variable list of validate_environment (lines 21-28), in
source order. -/
def required_vars : List String :=
  ["SMTP_PASSWORD", "SMTP_PORT", "SMTP_REQUIRE_TLS",
   "SMTP_SERVER", "SMTP_USERNAME", "SMTP_FROM"]

/-- Python truthiness test used at line 30: not os.environ.get(var), true
when the variable is absent or bound to the empty string. -/
def isMissing (e : Env) (v : String) : Bool :=
  match envGet e v with
  | none => true
  | some s => s == ""

/-- missing_vars (line 30): the required variables that are absent or
empty, in source order. -/
def missing_vars (e : Env) : List String :=
  required_vars.filter (isMissing e)

/-- The outgoing MIME message: subject, From and To header values, the
multipart subtype, and the attached parts as (content, MIME subtype)
pairs. -/
structure Msg where
  subject : String
  fromAddr : String
  toAddr : String
  subtype : String
  parts : List (String × String)
deriving Repr, DecidableEq

/-- Observable effects of a run, in order: lines printed to stderr and
stdout, the existence check on the input file, opening the input file for
reading, and the SMTP dialogue steps. -/
inductive Event
  | errLine (s : String)
  | outLine (s : String)
  | statFile (path : String)
  | openFile (path : String)
  | connectPlain (server : String) (port : Int)
  | connectSSL (server : String) (port : Int)
  | ehlo
  | starttls
  | login (user pw : String)
  | sendMsg (m : Msg)
deriving Repr, DecidableEq

/-- The three exception classes caught by send_report_email (lines
126-134): smtplib.SMTPAuthenticationError, any other smtplib.SMTPException,
and any other Exception. -/
inductive SendError
  | authError
  | smtpError (msg : String)
  | otherError (msg : String)
deriving Repr, DecidableEq

/-- What the filesystem does when the input file is opened and read. -/
inductive ReadResult
  | content (s : String)
  | notFound
  | readError (msg : String)
deriving Repr, DecidableEq

/-- The ambient world of one invocation: the process environment, whether
the input path is a regular file (Path.is_file at line 174), what reading
it yields, the current date already formatted as YYYY-MM-DD
(datetime.now().strftime at line 54), and how the SMTP connect/send
sequence ends (none is success). -/
structure World where
  env : Env
  fileIsFile : Bool
  readResult : ReadResult
  now : String
  smtpResult : Option SendError
deriving Repr, DecidableEq

/-- The parsed command line (argparse, lines 137-168): the positional file
path and the two optional flags (none when absent). -/
structure Args where
  html_file : String
  date : Option String
  recipients : Option String
deriving Repr, DecidableEq

/-- How the process ends: sys.exit with a status code, or an uncaught
exception (an interpreter traceback). -/
inductive Outcome
  | exited (code : Nat)
  | raised (exn : String)
deriving Repr, DecidableEq

/-- How a call of send_report_email ends: an uncaught exception, a direct
process exit (read_html_file calls sys.exit), or a normal boolean return. -/
inductive SendResult
  | raised (exn : String)
  | exited (code : Nat)
  | returned (ok : Bool)
deriving Repr, DecidableEq

/-- The usage block printed by validate_environment (lines 36-42): one
print starting with a blank line, then one line per expected key with its
meaning. -/
def envUsageLines : List String :=
  ["\nRequired environment variables:",
   "  SMTP_SERVER    - SMTP server hostname",
   "  SMTP_PORT      - SMTP server port",
   "  SMTP_USERNAME  - SMTP authentication username",
   "  SMTP_PASSWORD  - SMTP authentication password",
   "  SMTP_FROM      - Email sender address",
   "  SMTP_REQUIRE_TLS - Use STARTTLS (true/false)"]

/-- The stderr lines printed by a failing validate_environment (lines
33-42): the header, one line per missing variable, then the usage block. -/
def envErrorEvents (ms : List String) : List Event :=
  Event.errLine "Error: Missing required environment variables:" ::
    (ms.map (fun v => Event.errLine ("  - " ++ v)) ++ envUsageLines.map Event.errLine)

/-- validate_environment (lines 19-43): on any missing variable, print the
header, one line per missing variable, and the usage block to stderr, then
sys.exit(1); otherwise return. -/
def validate_environment (e : Env) : Except (List Event) Unit :=
  match missing_vars e with
  | [] => Except.ok ()
  | ms => Except.error (envErrorEvents ms)

/-- read_html_file (lines 66-76), given what the filesystem does: the
content on success, else the specific error line and sys.exit(1). -/
def read_html_file (html_file : String) (r : ReadResult) : Except (List Event) String :=
  match r with
  | ReadResult.content s => Except.ok s
  | ReadResult.notFound =>
    Except.error [Event.errLine ("Error: HTML file not found: " ++ html_file)]
  | ReadResult.readError e =>
    Except.error [Event.errLine ("Error reading HTML file: " ++ e)]

/-- Line 87: os.environ["SMTP_REQUIRE_TLS"].lower() in ("true", "1", "yes"). -/
def smtpRequireTls (v : String) : Bool :=
  pyLower v == "true" || pyLower v == "1" || pyLower v == "yes"

/-- ", ".join, used for the To header and the confirmation lines. -/
def joinCommaSpace (l : List String) : String :=
  String.intercalate ", " l

/-- send_report_email (lines 79-134). Environment reads happen in source
order (SERVER, PORT with int() applied immediately, USERNAME, PASSWORD,
FROM, REQUIRE_TLS); an absent key raises KeyError and a non-integer port
raises ValueError, both OUTSIDE the try block that guards only the
connect/send sequence (lines 106-134). The message is composed, the file is
read (read_html_file may exit the process), and the send then either
completes, or one of the three handlers logs its message and the function
returns False. A connect attempt event is recorded also when the sequence
fails, since the failure may occur at any point of the dialogue. -/
def send_report_email (html_file report_date : String) (recipients_list : List String)
    (w : World) : SendResult × List Event :=
  match envGet w.env "SMTP_SERVER" with
  | none => (SendResult.raised "KeyError: SMTP_SERVER", [])
  | some smtp_server =>
  match envGet w.env "SMTP_PORT" with
  | none => (SendResult.raised "KeyError: SMTP_PORT", [])
  | some port_str =>
  match pyInt port_str with
  | none =>
    (SendResult.raised ("ValueError: invalid literal for int() with base 10: " ++ port_str), [])
  | some smtp_port =>
  match envGet w.env "SMTP_USERNAME" with
  | none => (SendResult.raised "KeyError: SMTP_USERNAME", [])
  | some smtp_username =>
  match envGet w.env "SMTP_PASSWORD" with
  | none => (SendResult.raised "KeyError: SMTP_PASSWORD", [])
  | some smtp_password =>
  match envGet w.env "SMTP_FROM" with
  | none => (SendResult.raised "KeyError: SMTP_FROM", [])
  | some smtp_from =>
  match envGet w.env "SMTP_REQUIRE_TLS" with
  | none => (SendResult.raised "KeyError: SMTP_REQUIRE_TLS", [])
  | some tls_str =>
  let formatted_date := format_date_for_subject report_date
  match read_html_file html_file w.readResult with
  | Except.error evs => (SendResult.exited 1, Event.openFile html_file :: evs)
  | Except.ok html_content =>
  let msg : Msg :=
    { subject := "JIRA Progress Report - " ++ formatted_date
      fromAddr := smtp_from
      toAddr := joinCommaSpace recipients_list
      subtype := "alternative"
      parts := [(html_content, "html")] }
  let pre := [Event.openFile html_file,
    Event.outLine ("Connecting to SMTP server: " ++ smtp_server ++ ":" ++ toString smtp_port)]
  let okTrail :=
    [Event.login smtp_username smtp_password, Event.sendMsg msg,
     Event.outLine ("Successfully sent email to: " ++ joinCommaSpace recipients_list)]
  if smtpRequireTls tls_str then
    match w.smtpResult with
    | none =>
      (SendResult.returned true,
        pre ++ [Event.connectPlain smtp_server smtp_port, Event.ehlo, Event.starttls, Event.ehlo]
          ++ okTrail)
    | some SendError.authError =>
      (SendResult.returned false,
        pre ++ [Event.connectPlain smtp_server smtp_port,
          Event.errLine "Error: SMTP authentication failed. Check username and password."])
    | some (SendError.smtpError e) =>
      (SendResult.returned false,
        pre ++ [Event.connectPlain smtp_server smtp_port,
          Event.errLine ("Error: SMTP error occurred: " ++ e)])
    | some (SendError.otherError e) =>
      (SendResult.returned false,
        pre ++ [Event.connectPlain smtp_server smtp_port,
          Event.errLine ("Error: Failed to send email: " ++ e)])
  else
    match w.smtpResult with
    | none =>
      (SendResult.returned true, pre ++ [Event.connectSSL smtp_server smtp_port] ++ okTrail)
    | some SendError.authError =>
      (SendResult.returned false,
        pre ++ [Event.connectSSL smtp_server smtp_port,
          Event.errLine "Error: SMTP authentication failed. Check username and password."])
    | some (SendError.smtpError e) =>
      (SendResult.returned false,
        pre ++ [Event.connectSSL smtp_server smtp_port,
          Event.errLine ("Error: SMTP error occurred: " ++ e)])
    | some (SendError.otherError e) =>
      (SendResult.returned false,
        pre ++ [Event.connectSSL smtp_server smtp_port,
          Event.errLine ("Error: Failed to send email: " ++ e)])

/-- Report date resolution of main (lines 179-189): a truthy --date value
must parse as %Y-%m-%d or the process prints the two error lines and exits;
an absent (or empty, hence falsy) --date falls back to filename
extraction. -/
def resolveReportDate (dateFlag : Option String) (html_file now : String) :
    Except (List Event) String :=
  match dateFlag with
  | some s =>
    if s ≠ "" then
      match strptimeYmd s with
      | some _ => Except.ok s
      | none =>
        Except.error [Event.errLine ("Error: Invalid date format: " ++ s),
          Event.errLine "Expected format: YYYY-MM-DD"]
    else Except.ok (extract_date_from_filename now html_file)
  | none => Except.ok (extract_date_from_filename now html_file)

/-- The SMTP_RECIPIENTS fallback of main (lines 195-199): absent or empty
is fatal, otherwise split on commas and strip each entry. -/
def resolveRecipientsEnv (e : Env) : Except (List Event) (List String) :=
  match envGet e "SMTP_RECIPIENTS" with
  | none =>
    Except.error [Event.errLine
      "Error: No recipients specified. Use --recipients or set SMTP_RECIPIENTS env var."]
  | some s =>
    if s = "" then
      Except.error [Event.errLine
        "Error: No recipients specified. Use --recipients or set SMTP_RECIPIENTS env var."]
    else Except.ok ((pySplitComma s).map pyStrip)

/-- Recipient resolution of main (lines 192-199): a truthy --recipients
value is split on commas and stripped; an absent (or empty, hence falsy)
flag falls back to the SMTP_RECIPIENTS variable. -/
def resolveRecipients (recipientsFlag : Option String) (e : Env) :
    Except (List Event) (List String) :=
  match recipientsFlag with
  | some s =>
    if s ≠ "" then Except.ok ((pySplitComma s).map pyStrip)
    else resolveRecipientsEnv e
  | none => resolveRecipientsEnv e

/-- main (lines 137-212): validate the environment, check the input path is
a file, resolve the report date and the recipients, print the two info
lines, call send_report_email, and exit 0 on success or 1 on failure,
propagating an uncaught exception as a raised outcome. -/
def main (args : Args) (w : World) : Outcome × List Event :=
  match validate_environment w.env with
  | Except.error evs => (Outcome.exited 1, evs)
  | Except.ok _ =>
  if w.fileIsFile then
    match resolveReportDate args.date args.html_file w.now with
    | Except.error evs => (Outcome.exited 1, Event.statFile args.html_file :: evs)
    | Except.ok report_date =>
    match resolveRecipients args.recipients w.env with
    | Except.error evs => (Outcome.exited 1, Event.statFile args.html_file :: evs)
    | Except.ok recipients =>
    let evInfo := [Event.statFile args.html_file,
      Event.outLine ("Sending report for date: " ++ report_date),
      Event.outLine ("Recipients: " ++ joinCommaSpace recipients)]
    match send_report_email args.html_file report_date recipients w with
    | (SendResult.raised exn, evs) => (Outcome.raised exn, evInfo ++ evs)
    | (SendResult.exited c, evs) => (Outcome.exited c, evInfo ++ evs)
    | (SendResult.returned true, evs) =>
      (Outcome.exited 0, evInfo ++ evs ++ [Event.outLine "Email sent successfully!"])
    | (SendResult.returned false, evs) =>
      (Outcome.exited 1, evInfo ++ evs ++ [Event.errLine "Failed to send email."])
  else
    (Outcome.exited 1,
      [Event.statFile args.html_file,
       Event.errLine ("Error: HTML file not found: " ++ args.html_file)])

/-- An event that opens the input file for reading. -/
def isFileOpenEvent : Event → Bool
  | Event.openFile _ => true
  | _ => false

/-- An event that stats or opens the input file. -/
def isFileEvent : Event → Bool
  | Event.statFile _ => true
  | Event.openFile _ => true
  | _ => false

/-- An event that attempts a network connection. -/
def isNetworkEvent : Event → Bool
  | Event.connectPlain _ _ => true
  | Event.connectSSL _ _ => true
  | _ => false

/-- searchYmd finds exactly the matches of the pattern at some start
position: a successful search is a match at the leftmost matching start
position. -/
theorem searchYmd_eq_some_iff (cs : List Char) (s : String) :
    searchYmd cs = some s ↔
      ∃ i, matchYmdAt (cs.drop i) = some s ∧
        ∀ j, j < i → matchYmdAt (cs.drop j) = none := by
  induction cs with
  | nil =>
    constructor
    · intro h; simp [searchYmd] at h
    · rintro ⟨i, hi, -⟩
      rw [List.drop_nil] at hi
      exact absurd hi (by simp [matchYmdAt])
  | cons c rest ih =>
    cases hm : matchYmdAt (c :: rest) with
    | some t =>
      simp only [searchYmd, hm]
      constructor
      · intro h
        refine ⟨0, ?_, fun j hj => absurd hj (Nat.not_lt_zero j)⟩
        rw [List.drop_zero, hm]
        exact h
      · rintro ⟨i, hi, hmin⟩
        match i with
        | 0 =>
          rw [List.drop_zero, hm] at hi
          exact hi
        | n + 1 =>
          have h0 := hmin 0 (Nat.succ_pos n)
          rw [List.drop_zero, hm] at h0
          exact absurd h0 (by simp)
    | none =>
      simp only [searchYmd, hm]
      rw [ih]
      constructor
      · rintro ⟨i, hi, hmin⟩
        refine ⟨i + 1, by simpa using hi, ?_⟩
        intro j hj
        match j with
        | 0 => rw [List.drop_zero]; exact hm
        | k + 1 => simpa using hmin k (by omega)
      · rintro ⟨i, hi, hmin⟩
        match i with
        | 0 =>
          rw [List.drop_zero, hm] at hi
          exact absurd hi (by simp)
        | k + 1 =>
          refine ⟨k, by simpa using hi, ?_⟩
          intro j hj
          simpa using hmin (j + 1) (by omega)

/-- A failed search means the pattern matches at no start position. -/
theorem searchYmd_eq_none_iff (cs : List Char) :
    searchYmd cs = none ↔ ∀ i, matchYmdAt (cs.drop i) = none := by
  induction cs with
  | nil =>
    constructor
    · intro _ i
      rw [List.drop_nil]
      simp [matchYmdAt]
    · intro _
      rfl
  | cons c rest ih =>
    cases hm : matchYmdAt (c :: rest) with
    | some t =>
      simp only [searchYmd, hm]
      constructor
      · intro h; exact absurd h (by simp)
      · intro h
        have h0 := h 0
        rw [List.drop_zero, hm] at h0
        exact absurd h0 (by simp)
    | none =>
      simp only [searchYmd, hm]
      rw [ih]
      constructor
      · intro h i
        match i with
        | 0 => rw [List.drop_zero]; exact hm
        | k + 1 => simpa using h k
      · intro h i
        simpa using h (i + 1)

/-- Every month has at most 31 days. -/
theorem daysInMonth_le_31 (y m : Nat) : daysInMonth y m ≤ 31 := by
  unfold daysInMonth
  split
  · split <;> omega
  · split <;> omega

/-- Fields accepted by checkYmdFields are in range: a positive year, a
month 1..12 and a day 1..31. -/
theorem checkYmdFields_bounds (y0 : Nat) (mcs dcs : List Char) (y m d : Nat)
    (h : checkYmdFields y0 mcs dcs = some (y, m, d)) :
    1 ≤ y ∧ 1 ≤ m ∧ m ≤ 12 ∧ 1 ≤ d ∧ d ≤ 31 := by
  unfold checkYmdFields at h
  split at h
  · rename_i hcond
    injection h with h'
    have hy : y0 = y := congrArg Prod.fst h'
    have hm : natOfDigits mcs = m := congrArg Prod.fst (congrArg Prod.snd h')
    have hd : natOfDigits dcs = d := congrArg Prod.snd (congrArg Prod.snd h')
    have hd31 := daysInMonth_le_31 y0 (natOfDigits mcs)
    subst hy; subst hm; subst hd
    omega
  · exact absurd h (by simp)

/-- A date accepted by the strptime model has its fields in range: a
positive year, a month 1..12 and a day 1..31. -/
theorem strptimeYmd_bounds (s : String) (y m d : Nat)
    (h : strptimeYmd s = some (y, m, d)) :
    1 ≤ y ∧ 1 ≤ m ∧ m ≤ 12 ∧ 1 ≤ d ∧ d ≤ 31 := by
  unfold strptimeYmd at h
  split at h
  · split at h
    · split at h
      · split at h
        · exact checkYmdFields_bounds _ _ _ _ _ _ h
        · exact absurd h (by simp)
      · exact absurd h (by simp)
    · exact absurd h (by simp)
  · exact absurd h (by simp)

/-- Every entry of the validation failure output is a stderr line. -/
theorem envErrorEvents_errLine (ms : List String) :
    ∀ ev ∈ envErrorEvents ms, ∃ t, ev = Event.errLine t := by
  intro ev hev
  simp only [envErrorEvents, List.mem_cons, List.mem_append, List.mem_map] at hev
  rcases hev with rfl | ⟨v, hv, rfl⟩ | ⟨v, hv, rfl⟩
  · exact ⟨_, rfl⟩
  · exact ⟨_, rfl⟩
  · exact ⟨_, rfl⟩

/-- All lines printed by a failing validate_environment go to stderr. -/
theorem validate_error_events (e : Env) (evs : List Event)
    (h : validate_environment e = Except.error evs) :
    ∀ ev ∈ evs, ∃ t, ev = Event.errLine t := by
  unfold validate_environment at h
  split at h
  · exact absurd h (by simp)
  · injection h with h'
    subst h'
    exact envErrorEvents_errLine _

/-- All lines printed by a failing date resolution go to stderr. -/
theorem resolveReportDate_error_events (df : Option String) (hf now : String)
    (evs : List Event) (h : resolveReportDate df hf now = Except.error evs) :
    ∀ ev ∈ evs, ∃ t, ev = Event.errLine t := by
  unfold resolveReportDate at h
  split at h
  · split at h
    · split at h
      · exact absurd h (by simp)
      · injection h with h'
        subst h'
        intro ev hev
        simp only [List.mem_cons, List.not_mem_nil, or_false] at hev
        rcases hev with rfl | rfl
        · exact ⟨_, rfl⟩
        · exact ⟨_, rfl⟩
    · exact absurd h (by simp)
  · exact absurd h (by simp)

/-- All lines printed by a failing recipient resolution go to stderr. -/
theorem resolveRecipientsEnv_error_events (e : Env) (evs : List Event)
    (h : resolveRecipientsEnv e = Except.error evs) :
    ∀ ev ∈ evs, ∃ t, ev = Event.errLine t := by
  unfold resolveRecipientsEnv at h
  split at h
  · injection h with h'
    subst h'
    intro ev hev
    simp only [List.mem_cons, List.not_mem_nil, or_false] at hev
    subst hev
    exact ⟨_, rfl⟩
  · split at h
    · injection h with h'
      subst h'
      intro ev hev
      simp only [List.mem_cons, List.not_mem_nil, or_false] at hev
      subst hev
      exact ⟨_, rfl⟩
    · exact absurd h (by simp)

/-- All lines printed by a failing recipient resolution go to stderr. -/
theorem resolveRecipients_error_events (rf : Option String) (e : Env)
    (evs : List Event) (h : resolveRecipients rf e = Except.error evs) :
    ∀ ev ∈ evs, ∃ t, ev = Event.errLine t := by
  unfold resolveRecipients at h
  split at h
  · split at h
    · exact absurd h (by simp)
    · exact resolveRecipientsEnv_error_events _ _ h
  · exact resolveRecipientsEnv_error_events _ _ h

/-- The number of fields returned by str.split(",") is one more than the
number of commas: empty fields are kept, not filtered. -/
theorem splitCommaAux_length (cs : List Char) :
    ∀ acc, (splitCommaAux acc cs).length = cs.count ',' + 1 := by
  induction cs with
  | nil => intro acc; simp [splitCommaAux]
  | cons c rest ih =>
    intro acc
    by_cases hc : c = ','
    · subst hc
      simp [splitCommaAux, ih, List.count_cons]
    · simp [splitCommaAux, hc, ih, List.count_cons]


/-- A fully configured environment used by concrete runs. -/
def goodEnv : Env :=
  [("SMTP_PASSWORD", "pw"), ("SMTP_PORT", "587"), ("SMTP_REQUIRE_TLS", "true"),
   ("SMTP_SERVER", "smtp.example.com"), ("SMTP_USERNAME", "user"),
   ("SMTP_FROM", "from@example.com"), ("SMTP_RECIPIENTS", "a@x.com")]

/-- A world in which every step of the run succeeds. -/
def goodWorld : World :=
  { env := goodEnv
    fileIsFile := true
    readResult := ReadResult.content "<p>hi</p>"
    now := "2026-01-06"
    smtpResult := none }

/-- C1 counterexample: the empty string passed as the --date value does not
parse as YYYY-MM-DD, yet the process does not exit non-zero: Python
truthiness makes the check at line 179 treat the empty flag as absent, the
date falls back to the filename search, and an otherwise healthy run
completes with exit status 0. -/
theorem c1_date_flag_counterexample :
    strptimeYmd "" = none ∧
    (main { html_file := "report.html", date := some "", recipients := none }
        goodWorld).1 = Outcome.exited 0 :=
  ⟨rfl, rfl⟩

/-- C1 (amended): for a NON-EMPTY --date value, a value parsing as
YYYY-MM-DD is used as the report date unchanged, and a value failing to
parse makes the process exit with status 1, never opening the report file
and never touching the network (the path existence check at line 174 may
still stat the path first). The empty --date value is instead treated as an
absent flag. -/
theorem c1_date_flag_amended (s : String) (hne : s ≠ "") :
    (∀ y m d, strptimeYmd s = some (y, m, d) →
      ∀ html_file now, resolveReportDate (some s) html_file now = Except.ok s) ∧
    (strptimeYmd s = none →
      ∀ (args : Args) (w : World), args.date = some s →
        (main args w).1 = Outcome.exited 1 ∧
        ∀ e ∈ (main args w).2, isFileOpenEvent e = false ∧ isNetworkEvent e = false) := by
  constructor
  · intro y m d hp html_file now
    unfold resolveReportDate
    simp [hne, hp]
  · intro hp args w hdate
    cases hv : validate_environment w.env with
    | error evs =>
      constructor
      · simp [main, hv]
      · intro e he
        simp only [main, hv] at he
        obtain ⟨t, rfl⟩ := validate_error_events w.env evs hv e he
        exact ⟨rfl, rfl⟩
    | ok u =>
      cases u
      cases hfile : w.fileIsFile with
      | false =>
        constructor
        · simp [main, hv, hfile]
        · intro e he
          simp [main, hv, hfile] at he
          rcases he with rfl | rfl
          · exact ⟨rfl, rfl⟩
          · exact ⟨rfl, rfl⟩
      | true =>
        have hrd : resolveReportDate args.date args.html_file w.now =
            Except.error [Event.errLine ("Error: Invalid date format: " ++ s),
              Event.errLine "Expected format: YYYY-MM-DD"] := by
          rw [hdate]
          unfold resolveReportDate
          simp [hne, hp]
        constructor
        · simp [main, hv, hfile, hrd]
        · intro e he
          simp [main, hv, hfile, hrd] at he
          rcases he with rfl | rfl | rfl
          · exact ⟨rfl, rfl⟩
          · exact ⟨rfl, rfl⟩
          · exact ⟨rfl, rfl⟩

/-- C1 witness: a non-parsing non-empty --date value makes the process exit
with status 1. -/
theorem c1_date_flag_amended_witness :
    (main { html_file := "report.html", date := some "not-a-date", recipients := none }
        goodWorld).1 = Outcome.exited 1 :=
  ((c1_date_flag_amended "not-a-date" (by decide)).2 rfl
    { html_file := "report.html", date := some "not-a-date", recipients := none }
    goodWorld rfl).1

/-- C2 (confirmed): without a --date flag, when the filename contains a
substring matched by the pattern of four digits, hyphen, two digits,
hyphen, two digits, the resolved report date is the match at the leftmost
matching position (the first such substring); when no position of the
filename matches, the resolved report date is the current local date
formatted as YYYY-MM-DD (the parameter now). -/
theorem c2_filename_date (html_file now : String) (dateFlag : Option String)
    (hflag : dateFlag = none) :
    (∀ s, searchYmd html_file.data = some s →
      resolveReportDate dateFlag html_file now = Except.ok s ∧
      ∃ i, matchYmdAt (html_file.data.drop i) = some s ∧
        ∀ j, j < i → matchYmdAt (html_file.data.drop j) = none) ∧
    (searchYmd html_file.data = none →
      resolveReportDate dateFlag html_file now = Except.ok now ∧
      ∀ i, matchYmdAt (html_file.data.drop i) = none) := by
  subst hflag
  constructor
  · intro s hs
    constructor
    · unfold resolveReportDate extract_date_from_filename
      rw [hs]
    · exact (searchYmd_eq_some_iff _ _).mp hs
  · intro hs
    constructor
    · unfold resolveReportDate extract_date_from_filename
      rw [hs]
    · exact (searchYmd_eq_none_iff _).mp hs

/-- C2 witness: a filename carrying a date yields that date; a filename
without one yields the current date. -/
theorem c2_filename_date_witness :
    resolveReportDate none "report-2026-01-06.html" "2099-12-31" =
      Except.ok "2026-01-06" ∧
    resolveReportDate none "report.html" "2099-12-31" = Except.ok "2099-12-31" :=
  ⟨((c2_filename_date "report-2026-01-06.html" "2099-12-31" none rfl).1
      "2026-01-06" rfl).1,
   ((c2_filename_date "report.html" "2099-12-31" none rfl).2 rfl).1⟩

/-- C3 counterexample: "0005-01-06" parses as %Y-%m-%d (any four-digit year
from 0001 on is accepted), but glibc strftime does not zero-pad %Y, so the
formatter returns "Jan 06, 5", whose year part is one digit, not four. -/
theorem c3_display_format_counterexample :
    strptimeYmd "0005-01-06" = some (5, 1, 6) ∧
    format_date_for_subject "0005-01-06" = "Jan 06, 5" ∧
    format_date_for_subject "0005-01-06" ≠ "Jan 06, 0005" := by
  refine ⟨rfl, rfl, ?_⟩
  decide

/-- C3 (amended): a string parsing as YYYY-MM-DD is formatted as the
abbreviated month name, a space, the zero-padded two-digit day, a comma and
a space, and the year as an unpadded decimal number (four digits exactly
when the year is 1000..9999); any string that does not parse is returned
unchanged (and the formatter, a total function, never raises). -/
theorem c3_display_format_amended (s : String) :
    (∀ y m d, strptimeYmd s = some (y, m, d) →
      format_date_for_subject s =
        monthAbbrev m ++ " " ++ pad2 d ++ ", " ++ toString y ∧
      (pad2 d).length = 2 ∧
      monthAbbrev m ∈ (["Jan", "Feb", "Mar", "Apr", "May", "Jun",
        "Jul", "Aug", "Sep", "Oct", "Nov", "Dec"] : List String)) ∧
    (strptimeYmd s = none → format_date_for_subject s = s) ∧
    format_date_for_subject "2026-01-06" = "Jan 06, 2026" := by
  refine ⟨?_, ?_, rfl⟩
  · intro y m d hp
    obtain ⟨hy, hm1, hm2, hd1, hd2⟩ := strptimeYmd_bounds s y m d hp
    refine ⟨?_, ?_, ?_⟩
    · unfold format_date_for_subject
      rw [hp]
      rfl
    · interval_cases d <;> decide
    · interval_cases m <;> decide
  · intro hp
    unfold format_date_for_subject
    rw [hp]

/-- C3 witness: a valid date is reformatted; a calendar-invalid date string
is returned unchanged. -/
theorem c3_display_format_amended_witness :
    format_date_for_subject "2026-01-06" = "Jan 06, 2026" ∧
    format_date_for_subject "2026-02-30" = "2026-02-30" :=
  ⟨(c3_display_format_amended "x").2.2,
   (c3_display_format_amended "2026-02-30").2.1 rfl⟩

/-- C10 (confirmed): the date taken from a filename is never validated as a
calendar date: whenever the leftmost regex match of the filename is a
string that strptime rejects (such as an out-of-range month or day), it
still becomes the report date, and the subject formatter passes it through
unchanged via its parse-failure fallback; the fixed-width pattern also
matches inside longer digit runs, as in "x123456-78-90y". -/
theorem c10_no_calendar_validation (filename now s : String)
    (h : searchYmd filename.data = some s) (hbad : strptimeYmd s = none) :
    extract_date_from_filename now filename = s ∧
    resolveReportDate none filename now = Except.ok s ∧
    format_date_for_subject s = s ∧
    extract_date_from_filename now "report-2026-13-99.html" = "2026-13-99" ∧
    strptimeYmd "2026-13-99" = none ∧
    extract_date_from_filename now "x123456-78-90y" = "3456-78-90" := by
  refine ⟨?_, ?_, ?_, rfl, rfl, rfl⟩
  · unfold extract_date_from_filename
    rw [h]
  · unfold resolveReportDate extract_date_from_filename
    rw [h]
  · unfold format_date_for_subject
    rw [hbad]

/-- C10 witness: the out-of-range date in report-2026-13-99.html is
extracted as the report date and flows into the subject unchanged. -/
theorem c10_no_calendar_validation_witness :
    extract_date_from_filename "2099-12-31" "report-2026-13-99.html" = "2026-13-99" ∧
    format_date_for_subject "2026-13-99" = "2026-13-99" :=
  ⟨(c10_no_calendar_validation "report-2026-13-99.html" "2099-12-31" "2026-13-99"
      rfl rfl).1,
   (c10_no_calendar_validation "report-2026-13-99.html" "2099-12-31" "2026-13-99"
      rfl rfl).2.2.1⟩

/-- A required variable is not missing exactly when it is present with a
non-empty value. -/
theorem isMissing_false_iff (e : Env) (v : String) :
    isMissing e v = false ↔ ∃ t, envGet e v = some t ∧ t ≠ "" := by
  unfold isMissing
  cases h : envGet e v with
  | none => simp
  | some t => simp [h]

/-- C4 counterexample: with --recipients given the empty string, the claim
says the resolved list is the split of the flag value, which is the
one-element list containing the empty string; but Python truthiness at line
192 treats the empty flag as absent, and the code reads SMTP_RECIPIENTS
instead. -/
theorem c4_recipients_counterexample :
    (pySplitComma "").map pyStrip = [""] ∧
    resolveRecipients (some "") [("SMTP_RECIPIENTS", "c@z.com")] =
      Except.ok ["c@z.com"] ∧
    (["c@z.com"] : List String) ≠ [""] :=
  ⟨rfl, rfl, by decide⟩

/-- C4 (amended): for a NON-EMPTY --recipients value, the recipient list is
the flag value split on commas with each entry stripped of surrounding
whitespace, in order, with no deduplication, no validation and no filtering
of empty entries (the field count is always the comma count plus one); the
empty --recipients value is instead treated as an absent flag. With no
truthy flag (absent, or the empty string) and SMTP_RECIPIENTS absent or
empty, the process exits with status 1 without any network activity or send
attempt, and — whenever the run gets past the earlier environment, file and
date gates that would have aborted it first — it prints the
no-recipients-specified error to stderr. -/
theorem c4_recipients_amended (s : String) (hne : s ≠ "") :
    (∀ e : Env, resolveRecipients (some s) e =
      Except.ok ((pySplitComma s).map pyStrip)) ∧
    ((pySplitComma s).map pyStrip).length = s.data.count ',' + 1 ∧
    (pySplitComma "a@x.com, b@y.com").map pyStrip = ["a@x.com", "b@y.com"] ∧
    (pySplitComma "a,,b").map pyStrip = ["a", "", "b"] ∧
    (∀ (args : Args) (w : World),
      (args.recipients = none ∨ args.recipients = some "") →
      (envGet w.env "SMTP_RECIPIENTS" = none ∨
        envGet w.env "SMTP_RECIPIENTS" = some "") →
      (main args w).1 = Outcome.exited 1 ∧
      (∀ e ∈ (main args w).2, isNetworkEvent e = false ∧
        ∀ m, e ≠ Event.sendMsg m) ∧
      (missing_vars w.env = [] → w.fileIsFile = true →
        ∀ rd, resolveReportDate args.date args.html_file w.now = Except.ok rd →
        Event.errLine
            "Error: No recipients specified. Use --recipients or set SMTP_RECIPIENTS env var."
          ∈ (main args w).2)) := by
  refine ⟨?_, ?_, rfl, rfl, ?_⟩
  · intro e
    unfold resolveRecipients
    simp [hne]
  · rw [List.length_map]
    exact splitCommaAux_length s.data []
  · intro args w hflag henv
    have hrr : resolveRecipients args.recipients w.env = Except.error
        [Event.errLine
          "Error: No recipients specified. Use --recipients or set SMTP_RECIPIENTS env var."] := by
      rcases hflag with h | h <;> rcases henv with h2 | h2 <;>
        simp [resolveRecipients, resolveRecipientsEnv, h, h2]
    cases hv : validate_environment w.env with
    | error evs =>
      have hmne : missing_vars w.env ≠ [] := by
        intro hm
        have hok : validate_environment w.env = Except.ok () := by
          unfold validate_environment
          rw [hm]
        rw [hok] at hv
        exact Except.noConfusion hv
      refine ⟨?_, ?_, ?_⟩
      · simp [main, hv]
      · intro e he
        simp only [main, hv] at he
        obtain ⟨t, rfl⟩ := validate_error_events w.env evs hv e he
        exact ⟨rfl, fun m => by simp⟩
      · intro hm
        exact absurd hm hmne
    | ok u =>
      cases u
      cases hfile : w.fileIsFile with
      | false =>
        refine ⟨?_, ?_, ?_⟩
        · simp [main, hv, hfile]
        · intro e he
          simp [main, hv, hfile] at he
          rcases he with rfl | rfl
          · exact ⟨rfl, fun m => by simp⟩
          · exact ⟨rfl, fun m => by simp⟩
        · intro _ hft
          exact Bool.noConfusion hft
      | true =>
        cases hd : resolveReportDate args.date args.html_file w.now with
        | error evs =>
          refine ⟨?_, ?_, ?_⟩
          · simp [main, hv, hfile, hd]
          · intro e he
            simp [main, hv, hfile, hd] at he
            rcases he with rfl | he
            · exact ⟨rfl, fun m => by simp⟩
            · obtain ⟨t, rfl⟩ := resolveReportDate_error_events _ _ _ _ hd e he
              exact ⟨rfl, fun m => by simp⟩
          · intro _ _ rd2 hrd2
            exact Except.noConfusion hrd2
        | ok rd =>
          refine ⟨?_, ?_, ?_⟩
          · simp [main, hv, hfile, hd, hrr]
          · intro e he
            simp [main, hv, hfile, hd, hrr] at he
            rcases he with rfl | rfl
            · exact ⟨rfl, fun m => by simp⟩
            · exact ⟨rfl, fun m => by simp⟩
          · intro _ _ rd2 hrd2
            simp [main, hv, hfile, hd, hrr]

/-- The environment of the no-recipients run: all six required keys are
present and non-empty, but SMTP_RECIPIENTS is absent. -/
def noRecipientsEnv : Env :=
  [("SMTP_PASSWORD", "pw"), ("SMTP_PORT", "587"), ("SMTP_REQUIRE_TLS", "true"),
   ("SMTP_SERVER", "smtp.example.com"), ("SMTP_USERNAME", "user"),
   ("SMTP_FROM", "from@example.com")]

/-- The world of the no-recipients run. -/
def noRecipientsWorld : World :=
  { env := noRecipientsEnv
    fileIsFile := true
    readResult := ReadResult.content "<p>hi</p>"
    now := "2026-01-06"
    smtpResult := none }

/-- C4 witness: the example from the claim, resolved through the flag; and
a run with an empty --recipients flag and no SMTP_RECIPIENTS exits with
status 1 after printing the no-recipients error. -/
theorem c4_recipients_amended_witness :
    resolveRecipients (some "a@x.com, b@y.com") [] =
      Except.ok ["a@x.com", "b@y.com"] ∧
    (main { html_file := "r.html", date := none, recipients := some "" }
        noRecipientsWorld).1 = Outcome.exited 1 ∧
    Event.errLine
        "Error: No recipients specified. Use --recipients or set SMTP_RECIPIENTS env var."
      ∈ (main { html_file := "r.html", date := none, recipients := some "" }
          noRecipientsWorld).2 := by
  have h := c4_recipients_amended "a@x.com, b@y.com" (by decide)
  have h2 := h.2.2.2.2 { html_file := "r.html", date := none, recipients := some "" }
    noRecipientsWorld (Or.inr rfl) (Or.inl rfl)
  refine ⟨?_, h2.1, h2.2.2 rfl rfl "2026-01-06" rfl⟩
  rw [h.1 []]
  rw [h.2.2.1]

/-- C5 (confirmed): when at least one of the six required configuration
keys is absent or empty, the program prints each missing key to stderr plus
the full list of expected keys, and exits with status 1 having produced no
file or network activity; when all six are present and non-empty, the
validator returns and execution continues. The six required keys are
exactly the six the claim names. -/
theorem c5_validate_environment (args : Args) (w : World) :
    (missing_vars w.env ≠ [] →
      (main args w).1 = Outcome.exited 1 ∧
      (∀ v ∈ missing_vars w.env,
        Event.errLine ("  - " ++ v) ∈ (main args w).2) ∧
      Event.errLine "Error: Missing required environment variables:" ∈ (main args w).2 ∧
      (∀ L ∈ envUsageLines, Event.errLine L ∈ (main args w).2) ∧
      (∀ e ∈ (main args w).2, isFileEvent e = false ∧ isNetworkEvent e = false)) ∧
    (missing_vars w.env = [] ↔
      ∀ v ∈ required_vars, ∃ t, envGet w.env v = some t ∧ t ≠ "") ∧
    (missing_vars w.env = [] → validate_environment w.env = Except.ok ()) ∧
    required_vars.Perm ["SMTP_SERVER", "SMTP_PORT", "SMTP_USERNAME",
      "SMTP_PASSWORD", "SMTP_FROM", "SMTP_REQUIRE_TLS"] := by
  refine ⟨?_, ?_, ?_, by decide⟩
  · intro hne
    cases hm : missing_vars w.env with
    | nil => exact absurd hm hne
    | cons v0 vs =>
      have hv : validate_environment w.env =
          Except.error (envErrorEvents (v0 :: vs)) := by
        unfold validate_environment
        rw [hm]
      have hmain : main args w = (Outcome.exited 1, envErrorEvents (v0 :: vs)) := by
        simp [main, hv]
      rw [hmain]
      refine ⟨rfl, ?_, ?_, ?_, ?_⟩
      · intro v hvmem
        unfold envErrorEvents
        exact List.mem_cons_of_mem _
          (List.mem_append_left _ (List.mem_map_of_mem _ hvmem))
      · unfold envErrorEvents
        exact List.mem_cons_self _ _
      · intro L hL
        unfold envErrorEvents
        exact List.mem_cons_of_mem _
          (List.mem_append_right _ (List.mem_map_of_mem _ hL))
      · intro e he
        obtain ⟨t, rfl⟩ := envErrorEvents_errLine _ e he
        exact ⟨rfl, rfl⟩
  · unfold missing_vars
    rw [List.filter_eq_nil_iff]
    constructor
    · intro h v hv
      exact (isMissing_false_iff w.env v).mp (by simpa using h v hv)
    · intro h v hv
      simpa using (isMissing_false_iff w.env v).mpr (h v hv)
  · intro hm
    unfold validate_environment
    rw [hm]

/-- C5 witness: with SMTP_PORT absent, the run exits with status 1. -/
theorem c5_validate_environment_witness :
    (main { html_file := "r.html", date := none, recipients := none }
      { env := [("SMTP_PASSWORD", "pw"), ("SMTP_REQUIRE_TLS", "true"),
          ("SMTP_SERVER", "smtp.example.com"), ("SMTP_USERNAME", "user"),
          ("SMTP_FROM", "from@example.com")]
        fileIsFile := true
        readResult := ReadResult.content "<p>hi</p>"
        now := "2026-01-06"
        smtpResult := none }).1 = Outcome.exited 1 :=
  ((c5_validate_environment _ _).1 (by decide)).1

/-- C6 (confirmed): transport selection depends only on the value of
SMTP_REQUIRE_TLS: when its lowercased value is "true", "1" or "yes" the
sender opens a plaintext connection, greets, upgrades via STARTTLS,
re-greets, authenticates and sends; for any other value it opens a
TLS/SSL-wrapped connection from the start, authenticates and sends. -/
theorem c6_transport_selection (html_file report_date : String) (rs : List String)
    (w : World) (server portStr user pw sender tls content : String) (port : Int)
    (hs : envGet w.env "SMTP_SERVER" = some server)
    (hp : envGet w.env "SMTP_PORT" = some portStr)
    (hpi : pyInt portStr = some port)
    (hu : envGet w.env "SMTP_USERNAME" = some user)
    (hpw : envGet w.env "SMTP_PASSWORD" = some pw)
    (hf : envGet w.env "SMTP_FROM" = some sender)
    (ht : envGet w.env "SMTP_REQUIRE_TLS" = some tls)
    (hcont : w.readResult = ReadResult.content content)
    (hok : w.smtpResult = none) :
    (smtpRequireTls tls = true ↔
      pyLower tls = "true" ∨ pyLower tls = "1" ∨ pyLower tls = "yes") ∧
    (smtpRequireTls tls = true →
      send_report_email html_file report_date rs w =
        (SendResult.returned true,
         [Event.openFile html_file,
          Event.outLine ("Connecting to SMTP server: " ++ server ++ ":" ++ toString port),
          Event.connectPlain server port, Event.ehlo, Event.starttls, Event.ehlo,
          Event.login user pw,
          Event.sendMsg
            { subject := "JIRA Progress Report - " ++ format_date_for_subject report_date
              fromAddr := sender
              toAddr := joinCommaSpace rs
              subtype := "alternative"
              parts := [(content, "html")] },
          Event.outLine ("Successfully sent email to: " ++ joinCommaSpace rs)])) ∧
    (smtpRequireTls tls = false →
      send_report_email html_file report_date rs w =
        (SendResult.returned true,
         [Event.openFile html_file,
          Event.outLine ("Connecting to SMTP server: " ++ server ++ ":" ++ toString port),
          Event.connectSSL server port,
          Event.login user pw,
          Event.sendMsg
            { subject := "JIRA Progress Report - " ++ format_date_for_subject report_date
              fromAddr := sender
              toAddr := joinCommaSpace rs
              subtype := "alternative"
              parts := [(content, "html")] },
          Event.outLine ("Successfully sent email to: " ++ joinCommaSpace rs)])) := by
  refine ⟨?_, ?_, ?_⟩
  · simp [smtpRequireTls, or_assoc]
  · intro htls
    simp [send_report_email, read_html_file, hs, hp, hpi, hu, hpw, hf, ht, hcont,
      hok, htls]
  · intro htls
    simp [send_report_email, read_html_file, hs, hp, hpi, hu, hpw, hf, ht, hcont,
      hok, htls]

/-- C6 witness: with SMTP_REQUIRE_TLS set to true, the send succeeds over
the STARTTLS path. -/
theorem c6_transport_selection_witness :
    (send_report_email "r.html" "2026-01-06" ["a@x.com"] goodWorld).1 =
      SendResult.returned true := by
  have h := c6_transport_selection "r.html" "2026-01-06" ["a@x.com"] goodWorld
    "smtp.example.com" "587" "user" "pw" "from@example.com" "true" "<p>hi</p>" 587
    rfl rfl rfl rfl rfl rfl rfl rfl rfl
  rw [h.2.1 rfl]

/-- C7 (confirmed): on a run that reaches the send phase, an SMTP
authentication failure, any other SMTP protocol failure, and any other
exception during the connect/send sequence are each caught inside
send_report_email, logged to stderr with their distinguishing message, and
turned into a False return value; the top-level flow then exits with status
1. A successful send prints a confirmation naming all recipients and the
process exits with status 0. -/
theorem c7_send_error_handling (args : Args) (w : World) (rd : String)
    (rs : List String) (content : String)
    (hmiss : missing_vars w.env = [])
    (hfile : w.fileIsFile = true)
    (hdate : resolveReportDate args.date args.html_file w.now = Except.ok rd)
    (hrec : resolveRecipients args.recipients w.env = Except.ok rs)
    (hread : w.readResult = ReadResult.content content)
    (server portStr user pw sender tls : String) (port : Int)
    (hs : envGet w.env "SMTP_SERVER" = some server)
    (hp : envGet w.env "SMTP_PORT" = some portStr)
    (hpi : pyInt portStr = some port)
    (hu : envGet w.env "SMTP_USERNAME" = some user)
    (hpw : envGet w.env "SMTP_PASSWORD" = some pw)
    (hf : envGet w.env "SMTP_FROM" = some sender)
    (ht : envGet w.env "SMTP_REQUIRE_TLS" = some tls) :
    (w.smtpResult = none →
      (main args w).1 = Outcome.exited 0 ∧
      Event.outLine ("Successfully sent email to: " ++ joinCommaSpace rs)
        ∈ (main args w).2) ∧
    (w.smtpResult = some SendError.authError →
      (send_report_email args.html_file rd rs w).1 = SendResult.returned false ∧
      (main args w).1 = Outcome.exited 1 ∧
      Event.errLine "Error: SMTP authentication failed. Check username and password."
        ∈ (main args w).2) ∧
    (∀ e, w.smtpResult = some (SendError.smtpError e) →
      (send_report_email args.html_file rd rs w).1 = SendResult.returned false ∧
      (main args w).1 = Outcome.exited 1 ∧
      Event.errLine ("Error: SMTP error occurred: " ++ e) ∈ (main args w).2) ∧
    (∀ e, w.smtpResult = some (SendError.otherError e) →
      (send_report_email args.html_file rd rs w).1 = SendResult.returned false ∧
      (main args w).1 = Outcome.exited 1 ∧
      Event.errLine ("Error: Failed to send email: " ++ e) ∈ (main args w).2) := by
  have hv : validate_environment w.env = Except.ok () := by
    unfold validate_environment
    rw [hmiss]
  refine ⟨?_, ?_, ?_, ?_⟩
  · intro hok
    cases htls : smtpRequireTls tls <;>
      constructor <;>
        simp [main, hv, hfile, hdate, hrec, send_report_email, read_html_file,
          hs, hp, hpi, hu, hpw, hf, ht, hread, hok, htls]
  · intro herr
    cases htls : smtpRequireTls tls <;>
      refine ⟨?_, ?_, ?_⟩ <;>
        simp [main, hv, hfile, hdate, hrec, send_report_email, read_html_file,
          hs, hp, hpi, hu, hpw, hf, ht, hread, herr, htls]
  · intro e herr
    cases htls : smtpRequireTls tls <;>
      refine ⟨?_, ?_, ?_⟩ <;>
        simp [main, hv, hfile, hdate, hrec, send_report_email, read_html_file,
          hs, hp, hpi, hu, hpw, hf, ht, hread, herr, htls]
  · intro e herr
    cases htls : smtpRequireTls tls <;>
      refine ⟨?_, ?_, ?_⟩ <;>
        simp [main, hv, hfile, hdate, hrec, send_report_email, read_html_file,
          hs, hp, hpi, hu, hpw, hf, ht, hread, herr, htls]

/-- The world of the simulated authentication failure. -/
def authWorld : World :=
  { goodWorld with smtpResult := some SendError.authError }

/-- C7 witness: a simulated authentication failure exits with status 1. -/
theorem c7_send_error_handling_witness :
    (main { html_file := "r.html", date := none, recipients := none }
        authWorld).1 = Outcome.exited 1 :=
  ((c7_send_error_handling { html_file := "r.html", date := none, recipients := none }
      authWorld "2026-01-06" ["a@x.com"] "<p>hi</p>" rfl rfl rfl rfl rfl
      "smtp.example.com" "587" "user" "pw" "from@example.com" "true" 587
      rfl rfl rfl rfl rfl rfl rfl).2.1 rfl).2.1

/-- Inversion for the sender: any message carried by a send event of
send_report_email was composed from the report date, the joined recipient
list, the loaded file content as the single html part under the alternative
subtype, and the SMTP_FROM sender. -/
theorem send_report_email_sendMsg (html_file rd : String) (rs : List String)
    (w : World) (res : SendResult × List Event) (m : Msg)
    (hres : send_report_email html_file rd rs w = res)
    (hm : Event.sendMsg m ∈ res.2) :
    ∃ content sender, w.readResult = ReadResult.content content ∧
      envGet w.env "SMTP_FROM" = some sender ∧
      m = { subject := "JIRA Progress Report - " ++ format_date_for_subject rd
            fromAddr := sender
            toAddr := joinCommaSpace rs
            subtype := "alternative"
            parts := [(content, "html")] } := by
  subst hres
  cases hs : envGet w.env "SMTP_SERVER" with
  | none => simp [send_report_email, hs] at hm
  | some server =>
  cases hp : envGet w.env "SMTP_PORT" with
  | none => simp [send_report_email, hs, hp] at hm
  | some portStr =>
  cases hpi : pyInt portStr with
  | none => simp [send_report_email, hs, hp, hpi] at hm
  | some port =>
  cases hu : envGet w.env "SMTP_USERNAME" with
  | none => simp [send_report_email, hs, hp, hpi, hu] at hm
  | some user =>
  cases hpw : envGet w.env "SMTP_PASSWORD" with
  | none => simp [send_report_email, hs, hp, hpi, hu, hpw] at hm
  | some pw =>
  cases hf : envGet w.env "SMTP_FROM" with
  | none => simp [send_report_email, hs, hp, hpi, hu, hpw, hf] at hm
  | some sender =>
  cases ht : envGet w.env "SMTP_REQUIRE_TLS" with
  | none => simp [send_report_email, hs, hp, hpi, hu, hpw, hf, ht] at hm
  | some tls =>
  cases hread : w.readResult with
  | notFound =>
    simp [send_report_email, read_html_file, hs, hp, hpi, hu, hpw, hf, ht, hread] at hm
  | readError err =>
    simp [send_report_email, read_html_file, hs, hp, hpi, hu, hpw, hf, ht, hread] at hm
  | content content =>
    refine ⟨content, sender, rfl, rfl, ?_⟩
    cases htls : smtpRequireTls tls with
    | true =>
      cases hsm : w.smtpResult with
      | none =>
        simp [send_report_email, read_html_file, hs, hp, hpi, hu, hpw, hf, ht,
          hread, htls, hsm] at hm
        exact hm
      | some err =>
        cases err <;>
          simp [send_report_email, read_html_file, hs, hp, hpi, hu, hpw, hf, ht,
            hread, htls, hsm] at hm
    | false =>
      cases hsm : w.smtpResult with
      | none =>
        simp [send_report_email, read_html_file, hs, hp, hpi, hu, hpw, hf, ht,
          hread, htls, hsm] at hm
        exact hm
      | some err =>
        cases err <;>
          simp [send_report_email, read_html_file, hs, hp, hpi, hu, hpw, hf, ht,
            hread, htls, hsm] at hm

/-- C8 (confirmed): every message the program ever hands to the transport
has subject exactly "JIRA Progress Report - " followed by the
display-formatted date, a To header equal to the recipient list joined with
comma-space, and the loaded file content verbatim as the single html-typed
part under the multipart alternative subtype, with no other part. -/
theorem c8_message_shape (args : Args) (w : World) (m : Msg)
    (hmem : Event.sendMsg m ∈ (main args w).2) :
    ∃ rd rs content sender,
      resolveReportDate args.date args.html_file w.now = Except.ok rd ∧
      resolveRecipients args.recipients w.env = Except.ok rs ∧
      w.readResult = ReadResult.content content ∧
      envGet w.env "SMTP_FROM" = some sender ∧
      m = { subject := "JIRA Progress Report - " ++ format_date_for_subject rd
            fromAddr := sender
            toAddr := joinCommaSpace rs
            subtype := "alternative"
            parts := [(content, "html")] } := by
  cases hv : validate_environment w.env with
  | error evs =>
    simp only [main, hv] at hmem
    obtain ⟨t, ht⟩ := validate_error_events w.env evs hv _ hmem
    exact Event.noConfusion ht
  | ok u =>
    cases u
    cases hfile : w.fileIsFile with
    | false => simp [main, hv, hfile] at hmem
    | true =>
      cases hd : resolveReportDate args.date args.html_file w.now with
      | error evs =>
        simp [main, hv, hfile, hd] at hmem
        obtain ⟨t, ht⟩ := resolveReportDate_error_events _ _ _ _ hd _ hmem
        exact Event.noConfusion ht
      | ok rd =>
        cases hr : resolveRecipients args.recipients w.env with
        | error evs =>
          simp [main, hv, hfile, hd, hr] at hmem
          obtain ⟨t, ht⟩ := resolveRecipients_error_events _ _ _ hr _ hmem
          exact Event.noConfusion ht
        | ok rs =>
          cases hsend : send_report_email args.html_file rd rs w with
          | mk sres sevs =>
            cases sres with
            | raised exn =>
              simp [main, hv, hfile, hd, hr, hsend] at hmem
              obtain ⟨content, sender, h1, h2, h3⟩ :=
                send_report_email_sendMsg args.html_file rd rs w _ m hsend
                  (by simpa using hmem)
              exact ⟨rd, rs, content, sender, rfl, rfl, h1, h2, h3⟩
            | exited c =>
              simp [main, hv, hfile, hd, hr, hsend] at hmem
              obtain ⟨content, sender, h1, h2, h3⟩ :=
                send_report_email_sendMsg args.html_file rd rs w _ m hsend
                  (by simpa using hmem)
              exact ⟨rd, rs, content, sender, rfl, rfl, h1, h2, h3⟩
            | returned ok =>
              cases ok with
              | true =>
                simp [main, hv, hfile, hd, hr, hsend] at hmem
                obtain ⟨content, sender, h1, h2, h3⟩ :=
                  send_report_email_sendMsg args.html_file rd rs w _ m hsend
                    (by simpa using hmem)
                exact ⟨rd, rs, content, sender, rfl, rfl, h1, h2, h3⟩
              | false =>
                simp [main, hv, hfile, hd, hr, hsend] at hmem
                obtain ⟨content, sender, h1, h2, h3⟩ :=
                  send_report_email_sendMsg args.html_file rd rs w _ m hsend
                    (by simpa using hmem)
                exact ⟨rd, rs, content, sender, rfl, rfl, h1, h2, h3⟩

/-- The message sent by the successful concrete run. -/
def sentMsg : Msg :=
  { subject := "JIRA Progress Report - Jan 06, 2026"
    fromAddr := "from@example.com"
    toAddr := "a@x.com"
    subtype := "alternative"
    parts := [("<p>hi</p>", "html")] }

/-- C8 witness: the message of the concrete successful run has the claimed
shape. -/
theorem c8_message_shape_witness :
    ∃ rd rs content sender,
      resolveReportDate (some "2026-01-06") "report.html" "2026-01-06" =
        Except.ok rd ∧
      resolveRecipients none goodEnv = Except.ok rs ∧
      goodWorld.readResult = ReadResult.content content ∧
      envGet goodEnv "SMTP_FROM" = some sender ∧
      sentMsg = { subject := "JIRA Progress Report - " ++ format_date_for_subject rd
                  fromAddr := sender
                  toAddr := joinCommaSpace rs
                  subtype := "alternative"
                  parts := [(content, "html")] } :=
  c8_message_shape
    { html_file := "report.html"
      date := some "2026-01-06"
      recipients := none } goodWorld sentMsg (by decide)

/-- The environment of the unhandled-port run: every required key is
present and non-empty, but SMTP_PORT is not an integer. -/
def c9Env : Env :=
  [("SMTP_PASSWORD", "pw"), ("SMTP_PORT", "abc"), ("SMTP_REQUIRE_TLS", "true"),
   ("SMTP_SERVER", "smtp.example.com"), ("SMTP_USERNAME", "user"),
   ("SMTP_FROM", "from@example.com"), ("SMTP_RECIPIENTS", "a@x.com")]

/-- The world of the unhandled-port run. -/
def c9World : World :=
  { env := c9Env
    fileIsFile := true
    readResult := ReadResult.content "<p>hi</p>"
    now := "2026-01-06"
    smtpResult := none }

/-- C9 (code bug): with every required variable present and non-empty but
SMTP_PORT set to a non-integer string, validation passes, and the run ends
in an uncaught ValueError raised by int() at line 83 — outside the try
block that starts at line 106 — so the process dies with an interpreter
traceback instead of one of its own error messages: the trace
holds no stderr line at all, contradicting the stated policy that every
failure path prints a human-readable message naming the cause. -/
theorem c9_port_unhandled_exception :
    missing_vars c9Env = [] ∧
    pyInt "abc" = none ∧
    main { html_file := "report-2026-01-06.html", date := none, recipients := none }
        c9World =
      (Outcome.raised "ValueError: invalid literal for int() with base 10: abc",
       [Event.statFile "report-2026-01-06.html",
        Event.outLine "Sending report for date: 2026-01-06",
        Event.outLine "Recipients: a@x.com"]) :=
  ⟨rfl, rfl, rfl⟩

end JiraReportEmail
